import Mathlib

/-!
Shallow embedding of the match-data collection pipeline of the
`mac-tahmin-sistemi` repository (files `main.py`, `data_collector.py`,
`create_tables.py`), together with theorems settling the frozen claims
about its specification.

Modelling conventions:
* Parsed JSON payloads become Lean structures; a field whose extraction can
  raise in Python (`float(value["odd"])` raising `ValueError`, a JSON `null`
  goal count raising `TypeError` on comparison) is modelled as `Option`.
* Python truthiness of the odds fields (`if odds_data["home_odds"] and ...`)
  is modelled by `pyTruthy`: `None` and `0.0` are falsy.
* The database tables touched by `collect_match_data` become lists of rows;
  `INSERT ... ON CONFLICT (match_id) DO NOTHING` becomes an append guarded by
  a key-presence test (`match_id` is `UNIQUE` per `create_tables.py`).
* The external world (HTTP responses, clock) is passed in explicitly.
-/

namespace MacTahmin

/-! ### Odds API payloads (`/odds` endpoint), as consumed by
`get_odds_from_bookmaker` in `main.py` -/

/-- One entry of a bet's `values` list. `odd = none` models a value whose
`float(value["odd"])` conversion raises (`ValueError`/`KeyError`). -/
structure BetValue where
  value : String
  odd : Option ℚ
deriving DecidableEq

/-- One entry of a bookmaker's `bets` list. -/
structure Bet where
  name : String
  values : List BetValue
deriving DecidableEq

/-- One entry of `data["response"][0]["bookmakers"]`. -/
structure BookmakerEntry where
  bets : List Bet
deriving DecidableEq

/-- One entry of `data["response"]`. -/
structure OddsRespEntry where
  bookmakers : List BookmakerEntry
deriving DecidableEq

/-- A successfully decoded `/odds` API body. -/
structure OddsApiData where
  response : List OddsRespEntry
deriving DecidableEq

/-- Python truthiness of an optional float: `None` and `0.0` are falsy. -/
def pyTruthy : Option ℚ → Bool
  | none => false
  | some x => x != 0

/-- Substring test on char lists, used to model Python's `in` on strings. -/
def hasSubstringAux (pat : List Char) : List Char → Bool
  | [] => pat.isEmpty
  | c :: rest => pat.isPrefixOf (c :: rest) || hasSubstringAux pat rest

/-- Python's `pat in s` for strings. -/
def strContains (s pat : String) : Bool :=
  hasSubstringAux pat.toList s.toList

/-- The `odds_data` dict built by `get_odds_from_bookmaker`. -/
structure OddsData where
  home_odds : Option ℚ
  draw_odds : Option ℚ
  away_odds : Option ℚ
  over_2_5_odds : Option ℚ
  under_2_5_odds : Option ℚ
  btts_yes_odds : Option ℚ
  btts_no_odds : Option ℚ
  bookmaker_id : Nat
deriving DecidableEq

/-- Initial `odds_data` dict: every price `None`, `bookmaker_id` set. -/
def initOddsData (bookmaker_id : Nat) : OddsData :=
  ⟨none, none, none, none, none, none, none, bookmaker_id⟩

/-- One iteration of the `Match Winner` values loop. `none` models the
`ValueError` path (unparseable odd) aborting the whole parse. -/
def applyMatchWinner (od : OddsData) (v : BetValue) : Option OddsData :=
  if v.value == "Home" then
    v.odd.map fun x => { od with home_odds := some x }
  else if v.value == "Draw" then
    v.odd.map fun x => { od with draw_odds := some x }
  else if v.value == "Away" then
    v.odd.map fun x => { od with away_odds := some x }
  else some od

/-- One iteration of the `Goals Over/Under` values loop (`main.py` version:
the `"2.5" in value["value"]` check is per value). -/
def applyOverUnder (od : OddsData) (v : BetValue) : Option OddsData :=
  if strContains v.value "2.5" then
    if strContains v.value "Over" then
      v.odd.map fun x => { od with over_2_5_odds := some x }
    else if strContains v.value "Under" then
      v.odd.map fun x => { od with under_2_5_odds := some x }
    else some od
  else some od

/-- One iteration of the `Both Teams Score` values loop. -/
def applyBtts (od : OddsData) (v : BetValue) : Option OddsData :=
  if v.value == "Yes" then
    v.odd.map fun x => { od with btts_yes_odds := some x }
  else if v.value == "No" then
    v.odd.map fun x => { od with btts_no_odds := some x }
  else some od

/-- Dispatch on `bet["name"]` inside the `for bet in bookmaker["bets"]` loop. -/
def processBet (od : OddsData) (b : Bet) : Option OddsData :=
  if b.name == "Match Winner" then b.values.foldlM applyMatchWinner od
  else if b.name == "Goals Over/Under" then b.values.foldlM applyOverUnder od
  else if b.name == "Both Teams Score" then b.values.foldlM applyBtts od
  else some od

/-- `get_odds_from_bookmaker` (`main.py` lines 1482-1549), applied to the
`api_request` result for this bookmaker. Returns the parsed odds only when
all three 1X2 prices are truthy; otherwise `None`. -/
def get_odds_from_bookmaker (data : Option OddsApiData) (bookmaker_id : Nat) :
    Option OddsData :=
  match data with
  | none => none
  | some d =>
    match d.response with
    | [] => none
    | entry :: _ =>
      match entry.bookmakers with
      | [] => none
      | bm :: _ =>
        match bm.bets.foldlM processBet (initOddsData bookmaker_id) with
        | none => none
        | some od =>
          if pyTruthy od.home_odds && pyTruthy od.draw_odds &&
              pyTruthy od.away_odds then
            some od
          else none

/-- The fixed bookmaker priority list of `main.py` (lines 1401-1409). -/
def BOOKMAKERS : List Nat := [8, 11, 5, 6, 9, 12, 3]

/-- The `bookmaker_names` lookup with its `f"Bookmaker {id}"` fallback. -/
def bookmaker_names (id : Nat) : String :=
  if id == 8 then "Bet365"
  else if id == 11 then "Betfair"
  else if id == 5 then "William Hill"
  else if id == 6 then "Bwin"
  else if id == 9 then "188Bet"
  else if id == 12 then "Unibet"
  else if id == 3 then "Pinnacle"
  else "Bookmaker " ++ toString id

/-- The dict returned by `get_odds`: the accepted `odds_data` plus the
`odds_source` tag. -/
structure OddsQuote where
  odds : OddsData
  odds_source : String
deriving DecidableEq

/-- The `for bookmaker_id in BOOKMAKERS` loop of `get_odds`. `fetch` maps a
bookmaker id to the `api_request` result for it. -/
def goddsSearch (fetch : Nat → Option OddsApiData) : List Nat → Option OddsQuote
  | [] => none
  | id :: rest =>
    match get_odds_from_bookmaker (fetch id) id with
    | some od => some ⟨od, bookmaker_names id⟩
    | none => goddsSearch fetch rest

/-- `get_odds` (`main.py` lines 1551-1578): first accepted bookmaker in
priority order, tagged with its name; `None` when all are exhausted. -/
def get_odds (fetch : Nat → Option OddsApiData) : Option OddsQuote :=
  goddsSearch fetch BOOKMAKERS

/-! ### Team fixtures history (`/fixtures` endpoint), as consumed by
`get_team_form` and `calculate_team_stats` -/

/-- One match entry of the `/fixtures` response. A goal count is `Option`:
`none` models JSON `null` (Python `None`), which raises `TypeError` when
compared or added. -/
structure MatchEntry where
  home_id : Nat
  away_id : Nat
  goals_home : Option Int
  goals_away : Option Int
deriving DecidableEq

/-- The `response` list; a `none` element models an entry whose key lookups
raise `KeyError` and which is skipped whole. -/
abbrev FixturesData := List (Option MatchEntry)

/-- The `is_home` / `goals_for` / `goals_against` determination shared
verbatim by `get_team_form` and `calculate_team_stats`. -/
def goalsForAgainst (team_id : Nat) (m : MatchEntry) : Option Int × Option Int :=
  let is_home := m.home_id == team_id
  (if is_home then m.goals_home else m.goals_away,
   if is_home then m.goals_away else m.goals_home)

/-- Outcome letter of one match for a team: `W`/`D`/`L` by strict comparison
of goals for vs against, `none` when either goal count is null (the
`TypeError` skip path). -/
def matchOutcome (team_id : Nat) (m : MatchEntry) : Option Char :=
  match goalsForAgainst team_id m with
  | (some f, some a) =>
    some (if f > a then 'W' else if f == a then 'D' else 'L')
  | _ => none

/-- One iteration of the `for match in data.get("response", [])` loop of
`get_team_form`: append the outcome letter, or skip on exception. -/
def formStep (team_id : Nat) (form : String) (e : Option MatchEntry) : String :=
  match e with
  | none => form
  | some m =>
    match matchOutcome team_id m with
    | some c => form.push c
    | none => form

/-- `get_team_form` (`data_collector.py` lines 44-73, identical in
`main.py` lines 1451-1480), applied to the `api_request` result. -/
def get_team_form (data : Option FixturesData) (team_id : Nat) : String :=
  match data with
  | none => "N/A"
  | some entries =>
    let form := entries.foldl (formStep team_id) ""
    if form == "" then "N/A" else form

/-- Round-half-to-even of a rational, as Python's `round` on an exact value. -/
def roundHalfToEven (x : ℚ) : ℤ :=
  let f : ℤ := x.floor
  let frac : ℚ := x - f
  if frac < 1/2 then f
  else if 1/2 < frac then f + 1
  else if f % 2 = 0 then f else f + 1

/-- Python's `round(x, 2)` on an exact rational. -/
def round2 (x : ℚ) : ℚ := (roundHalfToEven (x * 100) : ℚ) / 100

/-- One iteration of the accumulation loop of `calculate_team_stats` over
`(total_goals, total_conceded, match_count)`. When goals-for parses but
goals-against is null, `total_goals += goals_for` has already executed
before `total_conceded += goals_against` raises `TypeError`, so the goals
total keeps the increment while the match is not counted. -/
def statsStep (team_id : Nat) (acc : Int × Int × Nat) (e : Option MatchEntry) :
    Int × Int × Nat :=
  match e with
  | none => acc
  | some m =>
    match goalsForAgainst team_id m with
    | (none, _) => acc
    | (some f, none) => (acc.1 + f, acc.2.1, acc.2.2)
    | (some f, some a) => (acc.1 + f, acc.2.1 + a, acc.2.2 + 1)

/-- The dict returned by `calculate_team_stats`. -/
structure TeamStats where
  goals_avg : ℚ
  conceded_avg : ℚ
deriving DecidableEq

/-- `calculate_team_stats` (`data_collector.py` lines 135-169, identical in
`main.py` lines 1580-1614), applied to the `api_request` result. -/
def calculate_team_stats (data : Option FixturesData) (team_id : Nat) :
    TeamStats :=
  match data with
  | none => ⟨0, 0⟩
  | some entries =>
    let acc := entries.foldl (statsStep team_id) (0, 0, 0)
    if acc.2.2 = 0 then ⟨0, 0⟩
    else ⟨round2 ((acc.1 : ℚ) / (acc.2.2 : ℚ)),
          round2 ((acc.2.1 : ℚ) / (acc.2.2 : ℚ))⟩

/-! ### The shared HTTP helper `api_request` -/

/-- Outcome of a single HTTP attempt, as distinguished by `api_request`:
a decoded body with falsy `errors`, a body with a truthy `errors` field
(even on HTTP 200), or a `requests.exceptions.RequestException`. -/
inductive ApiOutcome (α : Type) where
  | ok (data : α)
  | appError
  | transportError
deriving DecidableEq

/-- Whether an attempt outcome is one of the two failure kinds. -/
def isFailure {α : Type} : ApiOutcome α → Bool
  | ApiOutcome.ok _ => false
  | _ => true

/-- Two attempt outcomes that agree on success: same decoded body when both
succeed; both failures otherwise (the failure kinds may differ). -/
def sameSuccess {α : Type} : ApiOutcome α → ApiOutcome α → Prop
  | ApiOutcome.ok d, ApiOutcome.ok e => d = e
  | ApiOutcome.ok _, _ => False
  | _, ApiOutcome.ok _ => False
  | _, _ => True

/-- The `for attempt in range(retry_count)` loop of `api_request`
(`main.py` lines 1424-1449). `attempts i` is the outcome of the i-th try.
Returns the result together with the trace of `time.sleep(2)` delays
performed between attempts. -/
def apiLoop {α : Type} (attempts : Nat → ApiOutcome α) (retry_count : Nat) :
    List Nat → Option α × List Nat
  | [] => (none, [])
  | i :: rest =>
    match attempts i with
    | ApiOutcome.ok d => (some d, [])
    | ApiOutcome.appError =>
      if i < retry_count - 1 then
        let r := apiLoop attempts retry_count rest
        (r.1, 2 :: r.2)
      else (none, [])
    | ApiOutcome.transportError =>
      if i < retry_count - 1 then
        let r := apiLoop attempts retry_count rest
        (r.1, 2 :: r.2)
      else (none, [])

/-- `api_request` of `main.py` with its default `retry_count=2`: result plus
delay trace. -/
def api_request {α : Type} (attempts : Nat → ApiOutcome α) :
    Option α × List Nat :=
  apiLoop attempts 2 (List.range 2)

/-- `api_request` of `data_collector.py` (lines 27-42): a single attempt,
both failure kinds collapsing to `None`. -/
def api_request_single {α : Type} (attempt : ApiOutcome α) : Option α :=
  match attempt with
  | ApiOutcome.ok d => some d
  | _ => none

/-! ### Persistence (`predictions` and `match_stats` tables) and
`collect_match_data` of `main.py` -/

/-- A `predictions` row as written by `collect_match_data` (`main.py`);
`match_id` is `UNIQUE` per `create_tables.py`. Timestamps are abstract. -/
structure PredRow where
  match_id : String
  home_team : String
  away_team : String
  league : String
  match_date : String
  has_odds : Bool
  odds_source : Option String
  home_odds : Option ℚ
  draw_odds : Option ℚ
  away_odds : Option ℚ
  over_2_5_odds : Option ℚ
  under_2_5_odds : Option ℚ
  btts_yes_odds : Option ℚ
  btts_no_odds : Option ℚ
  ai_prediction : String
  created_at : Nat
deriving DecidableEq

/-- A `match_stats` row as written by `collect_match_data`; `match_id` is
`UNIQUE` per `create_tables.py`. -/
structure StatsRow where
  match_id : String
  home_form : String
  away_form : String
  home_goals_avg : ℚ
  away_goals_avg : ℚ
  created_at : Nat
deriving DecidableEq

/-- The two tables touched by `collect_match_data`. -/
structure DB where
  predictions : List PredRow
  match_stats : List StatsRow
deriving DecidableEq

/-- `INSERT ... ON CONFLICT (key) DO NOTHING` against a table whose `key`
column is UNIQUE: a silent no-op when a row with the key exists, an append
otherwise. -/
def insertKeyed {α : Type} (key : α → String) (rows : List α) (r : α) :
    List α :=
  if rows.any fun x => key x == key r then rows else rows ++ [r]

/-- `INSERT INTO predictions ... ON CONFLICT (match_id) DO NOTHING`. -/
def insertPred (rows : List PredRow) (r : PredRow) : List PredRow :=
  insertKeyed PredRow.match_id rows r

/-- `INSERT INTO match_stats ... ON CONFLICT (match_id) DO NOTHING`. -/
def insertStats (rows : List StatsRow) (r : StatsRow) : List StatsRow :=
  insertKeyed StatsRow.match_id rows r

/-- The fields of the incoming fixture object that `collect_match_data`
reads. -/
structure Fixture where
  fid : Nat
  league : String
  date : String
  home_name : String
  away_name : String
  home_id : Nat
  away_id : Nat
deriving DecidableEq

/-- The external world seen by one `collect_match_data` call:
`fixturesResp team last` is the `api_request` result of the `/fixtures`
query for a team and window, `oddsResp fixture_id bookmaker` the
`api_request` result of the `/odds` query, `now` the clock. -/
structure World where
  fixturesResp : Nat → Nat → Option FixturesData
  oddsResp : String → Nat → Option OddsApiData
  now : Nat

/-- The free-text `ai_prediction` annotation of `collect_match_data`. -/
def formSummary (home_form away_form : String) (hs as_ : TeamStats) :
    String :=
  "Form: H(" ++ home_form ++ ") A(" ++ away_form ++ ") | Avg Goals: H(" ++
    toString hs.goals_avg ++ ") A(" ++ toString as_.goals_avg ++ ")"

/-- The row bound by whichever `INSERT INTO predictions` statement
`collect_match_data` (`main.py` lines 1616-1726) executes: the with-odds
variant when `get_odds` accepted a source, the all-NULL odds variant with
`has_odds = FALSE` otherwise. -/
def collectPredRow (w : World) (fixture : Fixture) : PredRow :=
  let fixture_id := toString fixture.fid
  let home_form := get_team_form (w.fixturesResp fixture.home_id 5) fixture.home_id
  let away_form := get_team_form (w.fixturesResp fixture.away_id 5) fixture.away_id
  let home_stats := calculate_team_stats (w.fixturesResp fixture.home_id 10) fixture.home_id
  let away_stats := calculate_team_stats (w.fixturesResp fixture.away_id 10) fixture.away_id
  match get_odds fun bid => w.oddsResp fixture_id bid with
  | some q =>
    { match_id := fixture_id
      home_team := fixture.home_name
      away_team := fixture.away_name
      league := fixture.league
      match_date := fixture.date
      has_odds := true
      odds_source := some q.odds_source
      home_odds := q.odds.home_odds
      draw_odds := q.odds.draw_odds
      away_odds := q.odds.away_odds
      over_2_5_odds := q.odds.over_2_5_odds
      under_2_5_odds := q.odds.under_2_5_odds
      btts_yes_odds := q.odds.btts_yes_odds
      btts_no_odds := q.odds.btts_no_odds
      ai_prediction := formSummary home_form away_form home_stats away_stats
      created_at := w.now }
  | none =>
    { match_id := fixture_id
      home_team := fixture.home_name
      away_team := fixture.away_name
      league := fixture.league
      match_date := fixture.date
      has_odds := false
      odds_source := none
      home_odds := none
      draw_odds := none
      away_odds := none
      over_2_5_odds := none
      under_2_5_odds := none
      btts_yes_odds := none
      btts_no_odds := none
      ai_prediction := "NO_ODDS | " ++ formSummary home_form away_form home_stats away_stats
      created_at := w.now }

/-- The row bound by the `INSERT INTO match_stats` statement. -/
def collectStatsRow (w : World) (fixture : Fixture) : StatsRow :=
  let home_form := get_team_form (w.fixturesResp fixture.home_id 5) fixture.home_id
  let away_form := get_team_form (w.fixturesResp fixture.away_id 5) fixture.away_id
  let home_stats := calculate_team_stats (w.fixturesResp fixture.home_id 10) fixture.home_id
  let away_stats := calculate_team_stats (w.fixturesResp fixture.away_id 10) fixture.away_id
  { match_id := toString fixture.fid
    home_form := home_form
    away_form := away_form
    home_goals_avg := home_stats.goals_avg
    away_goals_avg := away_stats.goals_avg
    created_at := w.now }

/-- `collect_match_data` (`main.py` lines 1616-1726): gather forms, stats
and odds, then insert into `predictions` and `match_stats` with
conflict-do-nothing; a fixture without odds is still persisted. Returns
the new tables and the function's boolean result. -/
def collect_match_data (w : World) (fixture : Fixture) (db : DB) : DB × Bool :=
  (⟨insertPred db.predictions (collectPredRow w fixture),
    insertStats db.match_stats (collectStatsRow w fixture)⟩, true)

/-! ### Spec-side definitions used to state claims -/

/-- The outcome letters contributed by the well-formed entries of a history
response, in provider order. -/
def formLetters (team : Nat) (entries : FixturesData) : List Char :=
  entries.filterMap fun e => e.bind (matchOutcome team)

/-- Classification in the spec's words: pick the home or away goals
according to the side the team played; goals-for greater than goals-against
is a Win, equal a Draw, less a Loss; undefined when a goal count is null. -/
def outcomeLetterSpec (team : Nat) (m : MatchEntry) : Option Char :=
  let gf := if m.home_id == team then m.goals_home else m.goals_away
  let ga := if m.home_id == team then m.goals_away else m.goals_home
  match gf, ga with
  | some f, some a => some (if a < f then 'W' else if f = a then 'D' else 'L')
  | _, _ => none

/-- Goals scored and conceded of one fully parseable match entry. -/
def bothGoals (team : Nat) (m : MatchEntry) : Option (Int × Int) :=
  match goalsForAgainst team m with
  | (some f, some a) => some (f, a)
  | _ => none

/-- Team stats in the spec's words: arithmetic means of goals scored and
conceded over the qualifying (fully parseable) matches, rounded to 2
decimal places; zero when no match qualifies. -/
def specTeamStats (team : Nat) (entries : FixturesData) : TeamStats :=
  let q := entries.filterMap fun e => e.bind (bothGoals team)
  if q.length = 0 then ⟨0, 0⟩
  else ⟨round2 ((((q.map fun p => p.1).sum : Int) : ℚ) / (q.length : ℚ)),
        round2 ((((q.map fun p => p.2).sum : Int) : ℚ) / (q.length : ℚ))⟩

/-- All seven tracked market prices of a row are populated. -/
def oddsAllPopulated (r : PredRow) : Bool :=
  r.home_odds.isSome && r.draw_odds.isSome && r.away_odds.isSome &&
    r.over_2_5_odds.isSome && r.under_2_5_odds.isSome &&
    r.btts_yes_odds.isSome && r.btts_no_odds.isSome

/-- All seven tracked market prices of a row are null. -/
def oddsAllNull (r : PredRow) : Bool :=
  r.home_odds.isNone && r.draw_odds.isNone && r.away_odds.isNone &&
    r.over_2_5_odds.isNone && r.under_2_5_odds.isNone &&
    r.btts_yes_odds.isNone && r.btts_no_odds.isNone

/-- The all-or-nothing odds invariant claimed for persisted rows. -/
def oddsAllOrNothing (r : PredRow) : Bool :=
  oddsAllPopulated r || oddsAllNull r

/-! ### Concrete inputs used by witnesses and counterexamples -/

/-- An `/odds` body whose only bet carries just the Home and Draw prices:
incomplete 1X2. -/
def mwIncompleteApi : OddsApiData :=
  ⟨[⟨[⟨[⟨"Match Winner", [⟨"Home", some 2⟩, ⟨"Draw", some 3⟩]⟩]⟩]⟩]⟩

/-- An `/odds` body whose only bet carries all three 1X2 prices (and no
other market). -/
def mwCompleteApi : OddsApiData :=
  ⟨[⟨[⟨[⟨"Match Winner",
        [⟨"Home", some (mkRat 19 10)⟩, ⟨"Draw", some (mkRat 7 2)⟩,
         ⟨"Away", some 4⟩]⟩]⟩]⟩]⟩

/-- The parse of `mwCompleteApi` for bookmaker 6. -/
def mwCompleteOdds : OddsData :=
  ⟨some (mkRat 19 10), some (mkRat 7 2), some 4, none, none, none, none, 6⟩

/-- Odds world for the priority scenario: sources 8, 11, 5 return incomplete
1X2 data, source 6 returns complete data, the rest nothing. -/
def prioFetch : Nat → Option OddsApiData := fun id =>
  if id == 6 then some mwCompleteApi
  else if id == 8 || id == 11 || id == 5 then some mwIncompleteApi
  else none

/-- A world with no reachable history and no odds from any source. -/
def worldEmpty : World :=
  ⟨fun _ _ => none, fun _ _ => none, 0⟩

/-- A world where bookmaker 8 supplies 1X2-only odds for every fixture. -/
def worldMwOnly : World :=
  ⟨fun _ _ => none, fun _ bid => if bid == 8 then some mwCompleteApi else none, 0⟩

/-- A sample fixture object. -/
def sampleFixture : Fixture :=
  ⟨100, "Premier League", "2025-01-01", "Home FC", "Away FC", 1, 2⟩

/-- An empty database. -/
def dbEmpty : DB := ⟨[], []⟩

/-- A history response with one malformed entry and one entry whose goal
counts are null: zero qualifying matches. -/
def historyNoQualifying : FixturesData :=
  [none, some ⟨1, 2, none, some 3⟩]

/-- A history giving team 1 a home win, a home draw and an away loss, in
that order. -/
def historyWDL : FixturesData :=
  [some ⟨1, 9, some 2, some 0⟩, some ⟨1, 9, some 1, some 1⟩,
   some ⟨9, 1, some 3, some 0⟩]

/-- A history for team 1 with one qualifying 2-0 home win and one partial
entry whose goals-for parses as 5 but whose goals-against is null. -/
def historyPartialEntry : FixturesData :=
  [some ⟨1, 9, some 2, some 0⟩, some ⟨1, 9, some 5, none⟩]

/-- A history of three home matches for team 1 with goals [2,1,0] scored
and [1,1,2] conceded. -/
def historyThreeMatches : FixturesData :=
  [some ⟨1, 9, some 2, some 1⟩, some ⟨1, 9, some 1, some 1⟩,
   some ⟨1, 9, some 0, some 2⟩]

/-! ### Helper lemmas -/

theorem push_data (s : String) (c : Char) : s.push c = ⟨s.data ++ [c]⟩ := by
  cases s
  rfl

theorem mk_beq_empty (l : List Char) :
    ((⟨l⟩ : String) == "") = l.isEmpty := by
  cases l <;> simp [String.ext_iff]

theorem foldl_formStep (team : Nat) (entries : FixturesData) (s : String) :
    entries.foldl (formStep team) s = ⟨s.data ++ formLetters team entries⟩ := by
  induction entries generalizing s with
  | nil =>
    cases s
    simp [formLetters]
  | cons e rest ih =>
    rw [List.foldl_cons, ih]
    cases e with
    | none => simp [formLetters, formStep]
    | some m =>
      cases h : matchOutcome team m with
      | none => simp [formLetters, formStep, h]
      | some c => simp [formLetters, formStep, h, push_data]

theorem get_team_form_some (entries : FixturesData) (team : Nat) :
    get_team_form (some entries) team =
      if formLetters team entries = [] then "N/A"
      else ⟨formLetters team entries⟩ := by
  have h2 : entries.foldl (formStep team) "" = ⟨formLetters team entries⟩ :=
    foldl_formStep team entries ""
  have h0 : get_team_form (some entries) team =
      (if (entries.foldl (formStep team) "" == "") = true then "N/A"
       else entries.foldl (formStep team) "") := rfl
  rw [h0, h2, mk_beq_empty]
  rcases h : formLetters team entries with _ | ⟨c, cs⟩ <;> simp [h]

theorem outcomeSpec_eq (team : Nat) (m : MatchEntry) :
    outcomeLetterSpec team m = matchOutcome team m := by
  obtain ⟨hid, aid, gh, ga⟩ := m
  by_cases hh : (hid == team) = true <;>
    rcases gh with _ | f <;> rcases ga with _ | a <;>
      simp [outcomeLetterSpec, matchOutcome, goalsForAgainst, hh, gt_iff_lt]

theorem matchOutcome_letter {team : Nat} {m : MatchEntry} {c : Char}
    (h : matchOutcome team m = some c) : c = 'W' ∨ c = 'D' ∨ c = 'L' := by
  unfold matchOutcome at h
  rcases hp : goalsForAgainst team m with ⟨gf, ga⟩
  rw [hp] at h
  rcases gf with _ | f <;> rcases ga with _ | a <;> simp at h
  by_cases h1 : f > a
  · rw [if_pos h1] at h
    exact Or.inl h.symm
  · rw [if_neg h1] at h
    by_cases h2 : f = a
    · rw [if_pos h2] at h
      exact Or.inr (Or.inl h.symm)
    · rw [if_neg h2] at h
      exact Or.inr (Or.inr h.symm)

theorem foldl_statsStep_count (team : Nat) (entries : FixturesData)
    (acc : Int × Int × Nat) :
    (entries.foldl (statsStep team) acc).2.2 =
      acc.2.2 + (formLetters team entries).length := by
  induction entries generalizing acc with
  | nil => simp [formLetters]
  | cons e rest ih =>
    rw [List.foldl_cons, ih]
    cases e with
    | none => simp [formLetters, statsStep]
    | some m =>
      rcases hp : goalsForAgainst team m with ⟨gf, ga⟩
      rcases gf with _ | f <;> rcases ga with _ | a <;>
        (simp [statsStep, hp, formLetters, matchOutcome]; try omega)

/-! ### Claims about the form and stats calculators -/

/-- C5: for every team with zero qualifying historical matches (failed
fetch, empty response, or every entry unparseable), `get_team_form`
returns the sentinel "N/A" and `calculate_team_stats` returns zero for
both goal averages; both functions are total in the embedding, so neither
raises. -/
theorem c5_zero_qualifying_sentinel (data : Option FixturesData) (team : Nat)
    (h : ∀ entries, data = some entries → formLetters team entries = []) :
    get_team_form data team = "N/A" ∧
      calculate_team_stats data team = ⟨0, 0⟩ := by
  cases data with
  | none => exact ⟨rfl, rfl⟩
  | some entries =>
    have he := h entries rfl
    refine ⟨?_, ?_⟩
    · rw [get_team_form_some, he]
      simp
    · have hc := foldl_statsStep_count team entries (0, 0, 0)
      rw [he] at hc
      simp at hc
      unfold calculate_team_stats
      simp [hc]

/-- Witness for C5 at a concrete history with a malformed entry and an
entry with a null goal count. -/
theorem c5_witness :
    get_team_form (some historyNoQualifying) 1 = "N/A" ∧
      calculate_team_stats (some historyNoQualifying) 1 = ⟨0, 0⟩ :=
  c5_zero_qualifying_sentinel (some historyNoQualifying) 1
    (fun _ he => by cases he; decide)

/-- C6: for every non-empty team history, `get_team_form` classifies each
well-formed match by strict comparison of the team's goals for against
goals against (greater = W, equal = D, less = L, picking home or away
goals by the side played) and concatenates the letters in exactly the
provider's order, with no re-sorting. -/
theorem c6_form_strict_in_order (team : Nat) (entries : FixturesData)
    (h : entries.filterMap (fun e => e.bind (outcomeLetterSpec team)) ≠ []) :
    get_team_form (some entries) team =
      ⟨entries.filterMap fun e => e.bind (outcomeLetterSpec team)⟩ := by
  have hfl : entries.filterMap (fun e => e.bind (outcomeLetterSpec team)) =
      formLetters team entries := by
    unfold formLetters
    simp only [outcomeSpec_eq]
  rw [hfl] at h ⊢
  rw [get_team_form_some, if_neg h]

/-- Witness for C6: a win, a draw and an away loss in provider order give
"WDL". -/
theorem c6_witness : get_team_form (some historyWDL) 1 = "WDL" := by
  have h := c6_form_strict_in_order 1 historyWDL (by decide)
  rw [h]
  decide

/-- C10: on every response, `get_team_form` returns either exactly "N/A"
or a non-empty string of only the characters W, D, L, one per well-formed
match entry; the embedding is total, so the function never raises. -/
theorem c10_form_safety (data : Option FixturesData) (team : Nat) :
    get_team_form data team = "N/A" ∨
      ((get_team_form data team).data ≠ [] ∧
       (∀ c ∈ (get_team_form data team).data, c = 'W' ∨ c = 'D' ∨ c = 'L') ∧
       ∃ entries, data = some entries ∧
         (get_team_form data team).data.length =
           (formLetters team entries).length) := by
  cases data with
  | none => exact Or.inl rfl
  | some entries =>
    rcases hfl : formLetters team entries with _ | ⟨c, cs⟩
    · left
      rw [get_team_form_some, hfl]
      simp
    · right
      rw [get_team_form_some, hfl, if_neg (List.cons_ne_nil c cs)]
      refine ⟨by simp, ?_, entries, rfl, by rw [hfl]⟩
      intro x hx
      have hx2 : x ∈ formLetters team entries := by
        rw [hfl]
        exact hx
      unfold formLetters at hx2
      rw [List.mem_filterMap] at hx2
      obtain ⟨e, _, hbind⟩ := hx2
      cases e with
      | none => cases hbind
      | some m => exact matchOutcome_letter (by simpa using hbind)

/-- Witness for C10 at a concrete three-entry history. -/
theorem c10_witness :
    get_team_form (some historyWDL) 1 = "N/A" ∨
      ((get_team_form (some historyWDL) 1).data ≠ [] ∧
       (∀ c ∈ (get_team_form (some historyWDL) 1).data,
         c = 'W' ∨ c = 'D' ∨ c = 'L') ∧
       ∃ entries, (some historyWDL : Option FixturesData) = some entries ∧
         (get_team_form (some historyWDL) 1).data.length =
           (formLetters 1 entries).length) :=
  c10_form_safety (some historyWDL) 1

/-! ### Claims about the bookmaker list -/

/-- C9 counterexample: the fixed priority list does not have six entries. -/
theorem c9_counterexample : ¬ BOOKMAKERS.length = 6 := by decide

/-- C9 (amended): the odds resolver's fixed priority list consists of
exactly seven bookmaker sources, the primary source followed by six
alternates in a fixed sequence, and `get_odds` performs a first-success
search over exactly that list. -/
theorem c9_seven_bookmakers :
    BOOKMAKERS = [8, 11, 5, 6, 9, 12, 3] ∧ BOOKMAKERS.length = 7 ∧
      ∀ fetch : Nat → Option OddsApiData,
        get_odds fetch = BOOKMAKERS.findSome? fun id =>
          (get_odds_from_bookmaker (fetch id) id).map
            fun od => ⟨od, bookmaker_names id⟩ := by
  refine ⟨rfl, rfl, fun fetch => ?_⟩
  show goddsSearch fetch BOOKMAKERS = _
  generalize BOOKMAKERS = l
  induction l with
  | nil => rfl
  | cons a rest ih =>
    cases h : get_odds_from_bookmaker (fetch a) a <;>
      simp [goddsSearch, List.findSome?_cons, h, ih]

/-! ### Claims about the odds resolver -/

theorem godds_some_complete {d : Option OddsApiData} {bid : Nat}
    {od : OddsData} (h : get_odds_from_bookmaker d bid = some od) :
    pyTruthy od.home_odds = true ∧ pyTruthy od.draw_odds = true ∧
      pyTruthy od.away_odds = true := by
  unfold get_odds_from_bookmaker at h
  repeat' split at h
  all_goals first
  | exact Option.noConfusion h
  | (rename_i hc
     cases h
     simp at hc
     exact ⟨hc.1.1, hc.1.2, hc.2⟩)

theorem goddsSearch_first (fetch : Nat → Option OddsApiData) (l : List Nat) :
    ∀ (k : Nat) (hk : k < l.length) (od : OddsData),
      (∀ j (hj : j < l.length), j < k →
        get_odds_from_bookmaker (fetch (l.get ⟨j, hj⟩)) (l.get ⟨j, hj⟩) = none) →
      get_odds_from_bookmaker (fetch (l.get ⟨k, hk⟩)) (l.get ⟨k, hk⟩) = some od →
      goddsSearch fetch l = some ⟨od, bookmaker_names (l.get ⟨k, hk⟩)⟩ := by
  induction l with
  | nil =>
    intro k hk
    exact absurd hk (by simp)
  | cons a rest ih =>
    intro k hk od hnone hsome
    cases k with
    | zero =>
      have ha : get_odds_from_bookmaker (fetch a) a = some od := hsome
      show (match get_odds_from_bookmaker (fetch a) a with
            | some od2 => some (OddsQuote.mk od2 (bookmaker_names a))
            | none => goddsSearch fetch rest) = _
      rw [ha]
      rfl
    | succ k2 =>
      have h0 : get_odds_from_bookmaker (fetch a) a = none :=
        hnone 0 (by simp) (Nat.succ_pos k2)
      have hk2 : k2 < rest.length := Nat.lt_of_succ_lt_succ hk
      have step : goddsSearch fetch (a :: rest) = goddsSearch fetch rest := by
        show (match get_odds_from_bookmaker (fetch a) a with
              | some od2 => some (OddsQuote.mk od2 (bookmaker_names a))
              | none => goddsSearch fetch rest) = _
        rw [h0]
      rw [step]
      exact ih k2 hk2 od
        (fun j hj hjk => hnone (j + 1) (Nat.succ_lt_succ hj) (Nat.succ_lt_succ hjk))
        hsome

theorem get_odds_some_complete {fetch : Nat → Option OddsApiData}
    {q : OddsQuote} (h : get_odds fetch = some q) :
    pyTruthy q.odds.home_odds = true ∧ pyTruthy q.odds.draw_odds = true ∧
      pyTruthy q.odds.away_odds = true := by
  unfold get_odds at h
  generalize BOOKMAKERS = l at h
  induction l with
  | nil => exact Option.noConfusion h
  | cons a rest ih =>
    have hstep : goddsSearch fetch (a :: rest) =
        (match get_odds_from_bookmaker (fetch a) a with
         | some od2 => some (OddsQuote.mk od2 (bookmaker_names a))
         | none => goddsSearch fetch rest) := rfl
    rw [hstep] at h
    cases hg : get_odds_from_bookmaker (fetch a) a with
    | some od2 =>
      rw [hg] at h
      cases h
      exact godds_some_complete hg
    | none =>
      rw [hg] at h
      exact ih h

/-- C1: `get_odds` tries the bookmaker sources in the fixed priority order
and accepts the first source whose parsed response carries all three 1X2
prices, immediately stopping and tagging the quote with that source's
identity; a source rejected (missing a 1X2 price, or no data) makes the
search continue, so when the sources before position k are rejected and
position k's parse is accepted, the result is position k's quote tagged
with its identity — and any accepted parse has all three 1X2 prices. -/
theorem c1_priority_first_complete (fetch : Nat → Option OddsApiData)
    (k : Nat) (hk : k < BOOKMAKERS.length) (od : OddsData)
    (hbefore : ∀ j (hj : j < BOOKMAKERS.length), j < k →
      get_odds_from_bookmaker (fetch (BOOKMAKERS.get ⟨j, hj⟩))
        (BOOKMAKERS.get ⟨j, hj⟩) = none)
    (haccept : get_odds_from_bookmaker (fetch (BOOKMAKERS.get ⟨k, hk⟩))
      (BOOKMAKERS.get ⟨k, hk⟩) = some od) :
    get_odds fetch = some ⟨od, bookmaker_names (BOOKMAKERS.get ⟨k, hk⟩)⟩ ∧
      pyTruthy od.home_odds = true ∧ pyTruthy od.draw_odds = true ∧
        pyTruthy od.away_odds = true :=
  ⟨goddsSearch_first fetch BOOKMAKERS k hk od hbefore haccept,
   godds_some_complete haccept⟩

/-- Witness for C1: sources 8, 11, 5 return incomplete 1X2 data (S1..S3),
source 6 = Bwin (S4) returns complete data; the result is S4's quote
tagged "Bwin". -/
theorem c1_witness : get_odds prioFetch = some ⟨mwCompleteOdds, "Bwin"⟩ := by
  have h := c1_priority_first_complete prioFetch 3 (by decide) mwCompleteOdds
    (fun j hj hj3 => by
      have hj2 : j = 0 ∨ j = 1 ∨ j = 2 := by omega
      rcases hj2 with rfl | rfl | rfl <;> rfl)
    (by decide)
  exact h.1

/-! ### Claims about persistence -/

theorem insertKeyed_any_key {α : Type} (key : α → String) (rows : List α)
    (r : α) :
    ((insertKeyed key rows r).any fun x => key x == key r) = true := by
  unfold insertKeyed
  by_cases h : (rows.any fun x => key x == key r) = true
  · rw [if_pos h]
    exact h
  · rw [if_neg h]
    simp

theorem insertKeyed_again {α : Type} (key : α → String) (rows : List α)
    (r r2 : α) (h : key r2 = key r) :
    insertKeyed key (insertKeyed key rows r) r2 = insertKeyed key rows r := by
  have hany := insertKeyed_any_key key rows r
  show (if ((insertKeyed key rows r).any fun x => key x == key r2) = true
        then insertKeyed key rows r else insertKeyed key rows r ++ [r2]) =
      insertKeyed key rows r
  rw [h, if_pos hany]

theorem insertKeyed_free {α : Type} (key : α → String) (rows : List α)
    (r : α) (hfree : ∀ x ∈ rows, key x ≠ key r) :
    insertKeyed key rows r = rows ++ [r] := by
  have hnot : ¬ (rows.any fun x => key x == key r) = true := by
    rw [List.any_eq_true]
    rintro ⟨x, hx, hbeq⟩
    exact hfree x hx (by simpa using hbeq)
  unfold insertKeyed
  rw [if_neg hnot]

theorem insertKeyed_countP_one {α : Type} (key : α → String) (rows : List α)
    (r : α) (hfree : ∀ x ∈ rows, key x ≠ key r) :
    (insertKeyed key rows r).countP (fun x => key x == key r) = 1 := by
  rw [insertKeyed_free key rows r hfree, List.countP_append]
  have h0 : rows.countP (fun x => key x == key r) = 0 := by
    rw [List.countP_eq_zero]
    intro x hx
    simp [hfree x hx]
  rw [h0]
  simp [List.countP_cons]

theorem collectPredRow_match_id (w : World) (fx : Fixture) :
    (collectPredRow w fx).match_id = toString fx.fid := by
  simp only [collectPredRow]
  split <;> rfl

theorem collectStatsRow_match_id (w : World) (fx : Fixture) :
    (collectStatsRow w fx).match_id = toString fx.fid := rfl

theorem pyTruthy_isSome {o : Option ℚ} (h : pyTruthy o = true) :
    o.isSome = true := by
  cases o
  · exact Bool.noConfusion h
  · rfl

/-- C3: running `collect_match_data` twice on the same fixture — even
against different worlds — leaves the database of the first run unchanged
(conflict on the unique `match_id` is a silent no-op, never an update and
never an error), and when the fixture was not yet present each table gains
exactly one row keyed on the fixture's external identifier. -/
theorem c3_recollect_idempotent (w1 w2 : World) (fx : Fixture) (db0 : DB) :
    (collect_match_data w2 fx (collect_match_data w1 fx db0).1).1 =
      (collect_match_data w1 fx db0).1 ∧
    ((∀ r ∈ db0.predictions, r.match_id ≠ toString fx.fid) →
      ((collect_match_data w1 fx db0).1.predictions.countP
        fun r => r.match_id == toString fx.fid) = 1) ∧
    ((∀ r ∈ db0.match_stats, r.match_id ≠ toString fx.fid) →
      ((collect_match_data w1 fx db0).1.match_stats.countP
        fun r => r.match_id == toString fx.fid) = 1) := by
  refine ⟨?_, ?_, ?_⟩
  · show (⟨insertPred (insertPred db0.predictions (collectPredRow w1 fx))
            (collectPredRow w2 fx),
          insertStats (insertStats db0.match_stats (collectStatsRow w1 fx))
            (collectStatsRow w2 fx)⟩ : DB) = _
    unfold insertPred insertStats
    rw [insertKeyed_again PredRow.match_id db0.predictions _ _
        (by rw [collectPredRow_match_id, collectPredRow_match_id]),
      insertKeyed_again StatsRow.match_id db0.match_stats _ _
        (by rw [collectStatsRow_match_id, collectStatsRow_match_id])]
    rfl
  · intro hfree
    show (insertPred db0.predictions (collectPredRow w1 fx)).countP _ = 1
    unfold insertPred
    have hcount := insertKeyed_countP_one PredRow.match_id db0.predictions
      (collectPredRow w1 fx)
      (fun x hx => by rw [collectPredRow_match_id]; exact hfree x hx)
    rw [collectPredRow_match_id] at hcount
    exact hcount
  · intro hfree
    show (insertStats db0.match_stats (collectStatsRow w1 fx)).countP _ = 1
    unfold insertStats
    have hcount := insertKeyed_countP_one StatsRow.match_id db0.match_stats
      (collectStatsRow w1 fx)
      (fun x hx => by rw [collectStatsRow_match_id]; exact hfree x hx)
    rw [collectStatsRow_match_id] at hcount
    exact hcount

/-- Witness for C3 at a concrete world, fixture and empty database. -/
theorem c3_witness :
    (collect_match_data worldEmpty sampleFixture
        (collect_match_data worldEmpty sampleFixture dbEmpty).1).1 =
      (collect_match_data worldEmpty sampleFixture dbEmpty).1 ∧
    ((collect_match_data worldEmpty sampleFixture dbEmpty).1.predictions.countP
      fun r => r.match_id == toString sampleFixture.fid) = 1 ∧
    ((collect_match_data worldEmpty sampleFixture dbEmpty).1.match_stats.countP
      fun r => r.match_id == toString sampleFixture.fid) = 1 := by
  have h := c3_recollect_idempotent worldEmpty worldEmpty sampleFixture dbEmpty
  exact ⟨h.1, h.2.1 (fun r hr => absurd hr (List.not_mem_nil r)),
    h.2.2 (fun r hr => absurd hr (List.not_mem_nil r))⟩

/-- C4: when the odds resolver returns no odds, `collect_match_data` still
persists the match record, with `has_odds = FALSE`, no source tag and
every odds field uniformly null. -/
theorem c4_no_odds_still_persisted (w : World) (fx : Fixture) (db : DB)
    (hodds : get_odds (fun bid => w.oddsResp (toString fx.fid) bid) = none)
    (hfree : ∀ r ∈ db.predictions, r.match_id ≠ toString fx.fid) :
    ∃ r : PredRow,
      (collect_match_data w fx db).1.predictions = db.predictions ++ [r] ∧
      r.match_id = toString fx.fid ∧ r.has_odds = false ∧
      r.odds_source = none ∧ r.home_odds = none ∧ r.draw_odds = none ∧
      r.away_odds = none ∧ r.over_2_5_odds = none ∧
      r.under_2_5_odds = none ∧ r.btts_yes_odds = none ∧
      r.btts_no_odds = none := by
  refine ⟨collectPredRow w fx, ?_, ?_⟩
  · show insertPred db.predictions (collectPredRow w fx) = _
    unfold insertPred
    exact insertKeyed_free _ _ _
      (fun x hx => by rw [collectPredRow_match_id]; exact hfree x hx)
  · simp [collectPredRow, hodds]

/-- Witness for C4: a world where every odds source fails. -/
theorem c4_witness :
    ∃ r : PredRow,
      (collect_match_data worldEmpty sampleFixture dbEmpty).1.predictions =
        dbEmpty.predictions ++ [r] ∧
      r.match_id = toString sampleFixture.fid ∧ r.has_odds = false ∧
      r.odds_source = none ∧ r.home_odds = none ∧ r.draw_odds = none ∧
      r.away_odds = none ∧ r.over_2_5_odds = none ∧
      r.under_2_5_odds = none ∧ r.btts_yes_odds = none ∧
      r.btts_no_odds = none :=
  c4_no_odds_still_persisted worldEmpty sampleFixture dbEmpty rfl
    (fun r hr => absurd hr (List.not_mem_nil r))

/-- C2 counterexample: with a source supplying only the three 1X2 prices,
the persisted row has the 1X2 prices populated and the other market prices
null — the all-or-nothing invariant over all seven tracked prices fails. -/
theorem c2_counterexample :
    (collect_match_data worldMwOnly sampleFixture dbEmpty).1.predictions.map
      oddsAllOrNothing = [false] := by decide

/-- C2 (amended): the odds fields of a persisted row are 1X2-or-nothing —
either the accepting source's three 1X2 prices are all populated (the
over/under 2.5 and BTTS prices may individually be null), or every odds
field is null; a source missing a 1X2 price contributes no odds at all. -/
theorem c2_odds_1x2_or_nothing (w : World) (fx : Fixture) (db : DB)
    (hfree : ∀ r ∈ db.predictions, r.match_id ≠ toString fx.fid) :
    ∃ r : PredRow,
      (collect_match_data w fx db).1.predictions = db.predictions ++ [r] ∧
      ((r.has_odds = true ∧ r.home_odds.isSome = true ∧
        r.draw_odds.isSome = true ∧ r.away_odds.isSome = true) ∨
       (r.has_odds = false ∧ oddsAllNull r = true)) := by
  refine ⟨collectPredRow w fx, ?_, ?_⟩
  · show insertPred db.predictions (collectPredRow w fx) = _
    unfold insertPred
    exact insertKeyed_free _ _ _
      (fun x hx => by rw [collectPredRow_match_id]; exact hfree x hx)
  · cases hg : get_odds (fun bid => w.oddsResp (toString fx.fid) bid) with
    | none =>
      right
      simp [collectPredRow, hg, oddsAllNull]
    | some q =>
      left
      obtain ⟨h1, h2, h3⟩ := get_odds_some_complete hg
      simp [collectPredRow, hg, pyTruthy_isSome h1, pyTruthy_isSome h2,
        pyTruthy_isSome h3]

/-- Witness for C2's amended claim with a 1X2-only source. -/
theorem c2_witness :
    ∃ r : PredRow,
      (collect_match_data worldMwOnly sampleFixture dbEmpty).1.predictions =
        dbEmpty.predictions ++ [r] ∧
      ((r.has_odds = true ∧ r.home_odds.isSome = true ∧
        r.draw_odds.isSome = true ∧ r.away_odds.isSome = true) ∨
       (r.has_odds = false ∧ oddsAllNull r = true)) :=
  c2_odds_1x2_or_nothing worldMwOnly sampleFixture dbEmpty
    (fun r hr => absurd hr (List.not_mem_nil r))

/-! ### Claims about the shared HTTP helper -/

theorem apiLoop_congr {α : Type} (a b : Nat → ApiOutcome α)
    (h : ∀ i, sameSuccess (a i) (b i)) (rc : Nat) :
    ∀ l : List Nat, apiLoop a rc l = apiLoop b rc l := by
  intro l
  induction l with
  | nil => rfl
  | cons i rest ih =>
    have hi := h i
    cases ha : a i with
    | ok d =>
      cases hb : b i with
      | ok e =>
        rw [ha, hb] at hi
        have hde : d = e := hi
        subst hde
        simp [apiLoop, ha, hb]
      | appError =>
        rw [ha, hb] at hi
        exact hi.elim
      | transportError =>
        rw [ha, hb] at hi
        exact hi.elim
    | appError =>
      cases hb : b i with
      | ok e =>
        rw [ha, hb] at hi
        exact hi.elim
      | appError => simp [apiLoop, ha, hb, ih]
      | transportError => simp [apiLoop, ha, hb, ih]
    | transportError =>
      cases hb : b i with
      | ok e =>
        rw [ha, hb] at hi
        exact hi.elim
      | appError => simp [apiLoop, ha, hb, ih]
      | transportError => simp [apiLoop, ha, hb, ih]

theorem api_request_all_fail {α : Type} (a : Nat → ApiOutcome α)
    (h : ∀ i, isFailure (a i) = true) :
    api_request a = (none, [2]) := by
  have h0 := h 0
  have h1 := h 1
  show apiLoop a 2 [0, 1] = (none, [2])
  cases ha : a 0 <;> rw [ha] at h0
  case ok => exact Bool.noConfusion h0
  all_goals
    cases hb : a 1 <;> rw [hb] at h1
  case appError.ok => exact Bool.noConfusion h1
  case transportError.ok => exact Bool.noConfusion h1
  all_goals simp [apiLoop, ha, hb]

/-- C8: a response with a populated application-level `errors` field — even
on HTTP 200 — is treated exactly like a transport failure by `api_request`:
swapping failure kinds attempt-by-attempt changes neither the result nor
the trace of fixed 2-second retry delays; exhausting both attempts of the
fixed retry budget returns the `None` sentinel (after the single
inter-attempt delay) instead of raising; and the single-attempt
`api_request` of `data_collector.py` likewise collapses both failure kinds
to `None`. -/
theorem c8_app_error_like_transport {α : Type} (a b : Nat → ApiOutcome α)
    (h : ∀ i, sameSuccess (a i) (b i)) :
    api_request a = api_request b ∧
    ((∀ i, isFailure (a i) = true) → api_request a = (none, [2])) ∧
    (∀ x y : ApiOutcome α, sameSuccess x y →
      api_request_single x = api_request_single y ∧
      (isFailure x = true → api_request_single x = none)) := by
  refine ⟨apiLoop_congr a b h 2 (List.range 2), api_request_all_fail a, ?_⟩
  intro x y hxy
  cases x with
  | ok d =>
    cases y with
    | ok e =>
      have hde : d = e := hxy
      subst hde
      exact ⟨rfl, fun hf => Bool.noConfusion hf⟩
    | appError => exact hxy.elim
    | transportError => exact hxy.elim
  | appError =>
    cases y with
    | ok e => exact hxy.elim
    | appError => exact ⟨rfl, fun _ => rfl⟩
    | transportError => exact ⟨rfl, fun _ => rfl⟩
  | transportError =>
    cases y with
    | ok e => exact hxy.elim
    | appError => exact ⟨rfl, fun _ => rfl⟩
    | transportError => exact ⟨rfl, fun _ => rfl⟩

/-- Witness for C8: always-app-error versus always-transport-error
attempts give the same outcome, namely the sentinel after one retry
delay. -/
theorem c8_witness :
    api_request (fun _ => (ApiOutcome.appError : ApiOutcome Nat)) =
      api_request (fun _ => (ApiOutcome.transportError : ApiOutcome Nat)) ∧
    api_request (fun _ => (ApiOutcome.appError : ApiOutcome Nat)) =
      (none, [2]) := by
  have h := c8_app_error_like_transport
    (fun _ => (ApiOutcome.appError : ApiOutcome Nat))
    (fun _ => (ApiOutcome.transportError : ApiOutcome Nat))
    (fun _ => trivial)
  exact ⟨h.1, h.2.1 (fun _ => rfl)⟩

/-! ### The C7 divergence in `calculate_team_stats` -/

/-- C7: evaluation at the failing input. On a history with one qualifying
2-0 win and one partial entry (goals-for 5 parseable, goals-against null),
the code returns `goals_avg = 7.0` — the partial entry's goals-for is added
to the total even though the match is not counted — while the claimed mean
over the qualifying matches is `2.0`. The claim's own positive example
([2,1,0] over 3 matches giving 1.0) does hold. -/
theorem c7_stats_divergence :
    calculate_team_stats (some historyPartialEntry) 1 = ⟨7, 0⟩ ∧
    specTeamStats 1 historyPartialEntry = ⟨2, 0⟩ ∧
    (calculate_team_stats (some historyThreeMatches) 1).goals_avg = 1 := by
  refine ⟨?_, ?_, ?_⟩
  · have h1 : calculate_team_stats (some historyPartialEntry) 1 =
        ⟨round2 ((7 : ℚ) / 1), round2 ((0 : ℚ) / 1)⟩ := by
      simp [calculate_team_stats, historyPartialEntry, statsStep,
        goalsForAgainst]
    rw [h1]
    norm_num [round2, roundHalfToEven, Rat.floor]
  · have h2 : specTeamStats 1 historyPartialEntry =
        ⟨round2 ((((2 : Int) : ℚ)) / ((1 : Nat) : ℚ)), round2 ((((0 : Int) : ℚ)) / ((1 : Nat) : ℚ))⟩ := by
      simp [specTeamStats, historyPartialEntry, bothGoals, goalsForAgainst]
    rw [h2]
    norm_num [round2, roundHalfToEven, Rat.floor]
  · have h3 : calculate_team_stats (some historyThreeMatches) 1 =
        ⟨round2 ((3 : ℚ) / 3), round2 ((4 : ℚ) / 3)⟩ := by
      simp [calculate_team_stats, historyThreeMatches, statsStep,
        goalsForAgainst]
    rw [h3]
    norm_num [round2, roundHalfToEven, Rat.floor]

end MacTahmin
